import Mathlib

/-!
Verification of the rainfall-analysis pipeline in src/streamlit_app.py.

The pipeline is embedded shallowly: pandas DataFrames of raw records become
lists of records, groupby/sum and groupby/mean become list filters with sums
and means over rationals (floats are modelled by rationals; a missing CSV cell,
pandas NaN, is modelled by Option.none, and the skipna behaviour of pandas
sum is modelled by treating none as 0 in sums), and the pivot tables become
structures holding the index list, the column list and a total cell function
(fillna(0) for the daily table; Option-valued cells for the calendar matrix,
whose NaN holes are none).  st.error followed by st.stop aborts the current
request and is modelled by Except.error carrying the message text.
-/

namespace WeddingRainfall

/-- A calendar date as carried by the date column (year, month, day). -/
structure Date where
  year : Int
  month : Nat
  day : Nat
deriving DecidableEq, Repr

/-- A parsed timestamp: the date part plus the hour of day.  Minutes and
seconds play no role anywhere in the pipeline and are omitted. -/
structure Timestamp where
  date : Date
  hour : Nat
deriving DecidableEq, Repr

/-- One row of a per-year CSV file as read by pandas: the station-name
column, the timestamp column, and the rainfall-amount column, the last
being none when the cell is empty (pandas NaN). -/
structure CsvRow where
  stationName : String
  timestamp : Timestamp
  rainAmount : Option ℚ
deriving DecidableEq, Repr

/-- A loaded record after get_df adds the derived columns: location is the
station name, rain is the raw rainfall amount passed through unchanged
(still optional: an empty cell stays NaN in the rain column), and the
datetime is split into date and hour. -/
structure RawRecord where
  location : String
  date : Date
  hour : Nat
  rain : Option ℚ
deriving DecidableEq, Repr

/-- The column derivations of get_df applied to one CSV row:
location = station name, rain = raw rainfall amount, date and hour from
the parsed timestamp. -/
def toRecord (row : CsvRow) : RawRecord :=
  { location := row.stationName
    date := row.timestamp.date
    hour := row.timestamp.hour
    rain := row.rainAmount }

/-- The effective rainfall of a record as consumed by every aggregation:
pandas sum and mean skip NaN, so a missing amount contributes 0. -/
def rainfall_mm (r : RawRecord) : ℚ := r.rain.getD 0

/-- Warning text emitted by get_df for a year whose file cannot be read. -/
def warnMsg (y : Int) : String :=
  "Data file rain_" ++ toString y ++ ".csv not found. Either no data for this year or filename is incorrect."

/-- Fatal error text of get_df when no file at all could be read. -/
def noDataMsg : String :=
  "No data files were loaded. Please check the year range and try again."

/-- get_df: for each requested year try to read the per-year file (the
filesystem is a map from year to an optional table; none models a missing
or unreadable file), collecting a warning per failed year; if no file was
read, abort with the fatal message (st.error + st.stop); otherwise
concatenate the tables and add the derived columns.  Returns the warnings
together with the record set. -/
def get_df (fs : Int → Option (List CsvRow)) (years : List Int) :
    Except String (List String × List RawRecord) :=
  let tables := years.filterMap fs
  let warnings := (years.filter (fun y => (fs y).isNone)).map warnMsg
  if tables.isEmpty then
    .error noDataMsg
  else
    .ok (warnings, tables.flatten.map toRecord)

/-- The consecutive list of years list(range(year_start, year_end+1)) built
by display_analysis before calling get_df. -/
def intRange (a b : Int) : List Int :=
  (List.range (b + 1 - a).toNat).map (fun i => a + i)

/-- The loading step of display_analysis (cache-miss path): build the
requested year list, call get_df, and record that same requested list as
data_years next to the loaded records. -/
def load_step (fs : Int → Option (List CsvRow)) (year_start year_end : Int) :
    Except String (List String × List RawRecord × List Int) :=
  let collected_years := intRange year_start year_end
  match get_df fs collected_years with
  | .error e => .error e
  | .ok (w, df) => .ok (w, df, collected_years)

/-- Modelled from the spec: the list of years actually loaded successfully,
i.e. those whose per-year file could be read.  The source never computes
this list; it is defined here only to compare the spec's claimed loader
output against the code's. -/
def yearsLoadedSpec (fs : Int → Option (List CsvRow)) (years : List Int) : List Int :=
  years.filter (fun y => (fs y).isSome)

/-- The hour-window filter of get_df_lo_dt_eff:
datetime.dt.hour >= start_hour and <= end_hour, both inclusive. -/
def inWindow (start_hour end_hour : Nat) (r : RawRecord) : Bool :=
  decide (start_hour ≤ r.hour) && decide (r.hour ≤ end_hour)

/-- Sum of the rain column over a list of records, with pandas skipna
semantics (NaN contributes 0; the sum of an empty or all-NaN group is 0). -/
def sumRain (rs : List RawRecord) : ℚ := (rs.map rainfall_mm).sum

/-- The (location, date) grouping keys of a record list, in order of first
appearance (pandas groupby produces one group per distinct key). -/
def keysOf (rs : List RawRecord) : List (String × Date) :=
  (rs.map (fun r => (r.location, r.date))).dedup

/-- Whether a record belongs to the (location, date) group k. -/
def matchKey (k : String × Date) (r : RawRecord) : Bool :=
  decide (r.location = k.1) && decide (r.date = k.2)

/-- The summed rain of one (location, date) group. -/
def groupSum (rs : List RawRecord) (k : String × Date) : ℚ :=
  sumRain (rs.filter (matchKey k))

/-- The pivoted daily-totals table: the distinct dates of the grouped rows
(the pivot index), the distinct locations (the pivot columns), and a cell
function.  pandas additionally sorts the index and the columns; ordering is
irrelevant to every property proved here, which are stated via membership
and Nodup. -/
structure DailyTotalsTable where
  dates : List Date
  locations : List String
  cell : Date → String → ℚ

/-- get_df_lo_dt_eff: filter the records to the inclusive hour window,
group by (location, date) and sum the rain, then pivot to a date-by-location
table with fillna(0): a grid cell whose (location, date) group does not
exist holds 0.  The final astype(float) and to_datetime(index) are identity
in this model. -/
def get_df_lo_dt_eff (df : List RawRecord) (start_hour end_hour : Nat) :
    DailyTotalsTable :=
  let df_eff := df.filter (inWindow start_hour end_hour)
  let keys := keysOf df_eff
  { dates := (keys.map Prod.snd).dedup
    locations := (keys.map Prod.fst).dedup
    cell := fun dt loc =>
      if (loc, dt) ∈ keys then groupSum df_eff (loc, dt) else 0 }

/-- Arithmetic mean of a list of rationals (pandas mean; only ever applied
to non-empty groups, since groupby produces no empty group). -/
def mean (xs : List ℚ) : ℚ := xs.sum / (xs.length : ℚ)

/-- Error text of the two downstream aggregators for an unknown location. -/
def locErrMsg (loc : String) : String :=
  "Location \x27" ++ loc ++ "\x27 not found in the dataset. Please choose a different location."

/-- The full column list of the reset-index frame df_ built inside
get_df_mon_day_eff and get_df_mon_day_year_eff: the date column restored
from the pivot index, the location columns of the table, and the derived
helper columns years, months, days, hours.  The membership test
location not in df_.columns checks against this whole list, not only the
location columns. -/
def df_columns (t : DailyTotalsTable) : List String :=
  "date" :: t.locations ++ ["years", "months", "days", "hours"]

/-- The numeric value of column c in the row of df_ belonging to date d.
The assignments df_[years] etc. overwrite any like-named column, so the
helper names are checked first; the hours column is identically 0 because
the pivot index carries midnight timestamps.  The date column itself holds
a timestamp, not a number; it is mapped to 0 here and no theorem below
depends on that branch. -/
def colVal (t : DailyTotalsTable) (c : String) (d : Date) : ℚ :=
  if c = "years" then (d.year : ℚ)
  else if c = "months" then (d.month : ℚ)
  else if c = "days" then (d.day : ℚ)
  else if c = "hours" then 0
  else if c ∈ t.locations then t.cell d c
  else 0

/-- The month-by-day matrix pivoted by get_df_mon_day_eff: the distinct
months and days occurring among the grouped rows, and an Option-valued cell
function — none models both a (month, day) grid hole (pandas NaN after the
pivot) and a pair outside the grid altogether. -/
structure CalendarMatrix where
  months : List Nat
  days : List Nat
  cell : Nat → Nat → Option ℚ

/-- get_df_mon_day_eff: restrict the daily table's rows to the year range,
fail with the unknown-location message if the requested location is not a
column of the reset-index frame, otherwise group the location's column by
(month, day), take the mean in each group, and pivot to a month-by-day
matrix whose empty combinations stay NaN (none). -/
def get_df_mon_day_eff (df_lo_dt_eff : DailyTotalsTable) (location : String)
    (year_start year_end : Int) : Except String CalendarMatrix :=
  let rows := df_lo_dt_eff.dates.filter
    (fun d => decide (year_start ≤ d.year) && decide (d.year ≤ year_end))
  if location ∈ df_columns df_lo_dt_eff then
    .ok { months := (rows.map Date.month).dedup
          days := (rows.map Date.day).dedup
          cell := fun m dy =>
            let g := rows.filter (fun d => decide (d.month = m) && decide (d.day = dy))
            if g.isEmpty then none
            else some (mean (g.map (colVal df_lo_dt_eff location))) }
  else
    .error (locErrMsg location)

/-- The per-year series produced by get_df_mon_day_year_eff: the distinct
years of the rows matching the target (month, day), with the mean of the
location's column within each year. -/
structure YearlySeries where
  years : List Int
  avg : Int → ℚ

/-- get_df_mon_day_year_eff: keep only the rows whose (month, day) equals
the target, fail with the unknown-location message if the requested
location is not a column of the reset-index frame, otherwise group by year
and take the mean of the location's column.  The year_start and year_end
parameters are accepted, as in the source, but never read. -/
def get_df_mon_day_year_eff (df_lo_dt_eff : DailyTotalsTable) (location : String)
    (year_start year_end : Int) (months days : Nat) : Except String YearlySeries :=
  let rows := df_lo_dt_eff.dates.filter
    (fun d => decide (d.month = months) && decide (d.day = days))
  if location ∈ df_columns df_lo_dt_eff then
    .ok { years := (rows.map Date.year).dedup
          avg := fun y =>
            mean ((rows.filter (fun d => decide (d.year = y))).map
              (colVal df_lo_dt_eff location)) }
  else
    .error (locErrMsg location)

/-- Gregorian leap-year test. -/
def isLeap (y : Int) : Bool :=
  (decide (y % 4 = 0) && decide (y % 100 ≠ 0)) || decide (y % 400 = 0)

/-- Number of days of a month in a given year. -/
def daysInMonth (y : Int) (m : Nat) : Nat :=
  if m = 2 then (if isLeap y then 29 else 28)
  else if m = 4 ∨ m = 6 ∨ m = 9 ∨ m = 11 then 30
  else 31

/-- A date that exists in the Gregorian calendar. -/
def validDateB (d : Date) : Bool :=
  decide (1 ≤ d.month) && decide (d.month ≤ 12) &&
  decide (1 ≤ d.day) && decide (d.day ≤ daysInMonth d.year d.month)

/-- A (month, day) pair that is valid on at least one real calendar, i.e.
realised by some year (so (2, 29) is valid but (2, 30) is not). -/
def validMonthDay (m dy : Nat) : Prop :=
  1 ≤ m ∧ m ≤ 12 ∧ 1 ≤ dy ∧ ∃ y : Int, dy ≤ daysInMonth y m

/-- Whether an aggregator result is a table rather than an aborted request. -/
def isOkE {α : Type} (r : Except String α) : Bool :=
  match r with
  | .ok _ => true
  | .error _ => false

/-- The year keys of a date-series result; an aborted request has none. -/
def seriesYears (r : Except String YearlySeries) : List Int :=
  match r with
  | .ok s => s.years
  | .error _ => []

/-- The cell function of a calendar-matrix result; an aborted request has
only empty cells. -/
def calCell (r : Except String CalendarMatrix) : Nat → Nat → Option ℚ :=
  match r with
  | .ok mtx => mtx.cell
  | .error _ => fun _ _ => none

/-- The warnings of a loader result. -/
def dfWarnings (r : Except String (List String × List RawRecord)) : List String :=
  match r with
  | .ok p => p.1
  | .error _ => []

/-- The record set of a loader result. -/
def dfRecords (r : Except String (List String × List RawRecord)) : List RawRecord :=
  match r with
  | .ok p => p.2
  | .error _ => []

/-- The data_years list recorded by the loading step of display_analysis. -/
def loadStepYears (r : Except String (List String × List RawRecord × List Int)) : List Int :=
  match r with
  | .ok p => p.2.2
  | .error _ => []

/-! ### Concrete fixtures used by witnesses and counterexamples -/

/-- Location A, 2023-05-26 at 12:00, 2.0 mm (the in-window reading of the
spec's concrete scenario). -/
def recNoon : RawRecord := { location := "A", date := ⟨2023, 5, 26⟩, hour := 12, rain := some 2 }

/-- Location A, 2023-05-26 at 20:00, 5.0 mm (the excluded reading of the
spec's concrete scenario). -/
def recEvening : RawRecord := { location := "A", date := ⟨2023, 5, 26⟩, hour := 20, rain := some 5 }

/-- The record set of the spec's concrete window scenario. -/
def rsScenario : List RawRecord := [recNoon, recEvening]

/-- Location B, 2023-05-27 at 20:00: a record whose date and location occur
in the input only outside the window [11, 19]. -/
def recLate : RawRecord := { location := "B", date := ⟨2023, 5, 27⟩, hour := 20, rain := some 1 }

/-- A record set in which date 2023-05-27 and location B appear only
outside the hour window. -/
def rsPartial : List RawRecord := [recNoon, recLate]

/-- A daily table holding a single dated row from year 2020. -/
def tbl2020 : DailyTotalsTable :=
  get_df_lo_dt_eff [{ location := "A", date := ⟨2020, 5, 26⟩, hour := 12, rain := some 3 }] 11 19

/-- A daily table with rows for 2022-05-26 and 2024-05-26 but, for 2023,
only 2023-06-01: year 2023 has no row for the calendar date (5, 26). -/
def tblYears : DailyTotalsTable :=
  get_df_lo_dt_eff
    [{ location := "A", date := ⟨2022, 5, 26⟩, hour := 12, rain := some 4 },
     { location := "A", date := ⟨2023, 6, 1⟩, hour := 12, rain := some 7 },
     { location := "A", date := ⟨2024, 5, 26⟩, hour := 12, rain := some 6 }] 11 19

/-- A daily table whose rows make month 2 and day 30 both occur in the
pivot grid of the calendar aggregator (via 2023-02-28 and 2023-01-30)
without any row dated (2, 30). -/
def tblCal : DailyTotalsTable :=
  get_df_lo_dt_eff
    [{ location := "A", date := ⟨2023, 2, 28⟩, hour := 12, rain := some 1 },
     { location := "A", date := ⟨2023, 1, 30⟩, hour := 12, rain := some 2 }] 11 19

/-- A CSV row of the 2022 file. -/
def row2022 : CsvRow := { stationName := "A", timestamp := ⟨⟨2022, 5, 26⟩, 12⟩, rainAmount := some 4 }

/-- A CSV row of the 2024 file with an empty rainfall cell. -/
def row2024 : CsvRow := { stationName := "A", timestamp := ⟨⟨2024, 5, 26⟩, 12⟩, rainAmount := none }

/-- A filesystem where the 2022 and 2024 files exist but the 2023 file is
missing. -/
def fsPartial : Int → Option (List CsvRow) := fun y =>
  if y = 2022 then some [row2022] else if y = 2024 then some [row2024] else none

/-- A filesystem with no readable file at all. -/
def fsEmpty : Int → Option (List CsvRow) := fun _ => none

/-! ### Shared lemmas about the window aggregator -/

/-- Every cell of the pivoted daily table, fillna(0) included, equals the
skipna sum of the rain of the input records matching that (location, date)
and lying in the hour window. -/
theorem cell_eq_filterSum (df : List RawRecord) (s e : Nat) (loc : String) (dt : Date) :
    (get_df_lo_dt_eff df s e).cell dt loc =
      sumRain (df.filter (fun r => matchKey (loc, dt) r && inWindow s e r)) := by
  show (if (loc, dt) ∈ keysOf (df.filter (inWindow s e)) then
      groupSum (df.filter (inWindow s e)) (loc, dt) else 0) = _
  rw [← List.filter_filter]
  by_cases h : (loc, dt) ∈ keysOf (df.filter (inWindow s e))
  · rw [if_pos h]; rfl
  · rw [if_neg h]
    have hnil : (df.filter (inWindow s e)).filter (matchKey (loc, dt)) = [] := by
      rw [List.filter_eq_nil_iff]
      intro r hr hmatch
      refine h ?_
      rw [keysOf, List.mem_dedup, List.mem_map]
      refine ⟨r, hr, ?_⟩
      rcases Bool.and_eq_true_iff.mp hmatch with ⟨h1, h2⟩
      exact Prod.ext (of_decide_eq_true h1) (of_decide_eq_true h2)
    rw [hnil]; rfl

/-- With an inverted window no record passes the hour filter. -/
theorem eff_nil_of_inverted (df : List RawRecord) (s e : Nat) (h : e < s) :
    df.filter (inWindow s e) = [] := by
  rw [List.filter_eq_nil_iff]
  intro r _ hwin
  rcases Bool.and_eq_true_iff.mp hwin with ⟨h1, h2⟩
  exact absurd (le_trans (of_decide_eq_true h1) (of_decide_eq_true h2)) (not_le.mpr h)

/-- When the requested location fails the column-membership test, both
downstream aggregators abort with the unknown-location message. -/
theorem unknown_location_rejected_aux (t : DailyTotalsTable) (loc : String)
    (ys ye : Int) (hm : loc ∉ df_columns t) :
    get_df_mon_day_eff t loc ys ye = .error (locErrMsg loc) ∧
    ∀ m dy : Nat, get_df_mon_day_year_eff t loc ys ye m dy = .error (locErrMsg loc) := by
  constructor
  · rw [get_df_mon_day_eff, if_neg hm]
  · intro m dy
    rw [get_df_mon_day_year_eff, if_neg hm]

/-- The matrix cell of a successful calendar aggregation, written out: the
group of year-restricted rows matching (m, dy), none if that group is
empty, its mean otherwise. -/
theorem calCell_ok (t : DailyTotalsTable) (loc : String) (ys ye : Int)
    (hloc : loc ∈ df_columns t) (m dy : Nat) :
    calCell (get_df_mon_day_eff t loc ys ye) m dy =
      if ((t.dates.filter (fun d => decide (ys ≤ d.year) && decide (d.year ≤ ye))).filter
            (fun d => decide (d.month = m) && decide (d.day = dy))).isEmpty then none
      else some (mean (((t.dates.filter
            (fun d => decide (ys ≤ d.year) && decide (d.year ≤ ye))).filter
              (fun d => decide (d.month = m) && decide (d.day = dy))).map (colVal t loc))) := by
  rw [get_df_mon_day_eff, if_pos hloc]
  rfl

/-! ### Claim theorems -/

/-- C1: for every record set and fixed (location, date), the daily-totals
table produced by get_df_lo_dt_eff with window [start_hour, end_hour] maps
that (location, date) to the sum of the rainfall of exactly the input
records of that location on that date whose hour lies in the inclusive
window; in particular, for location A with 2 mm at 12:00 and 5 mm at
20:00 on 2023-05-26 and window [11, 19], the cell for (A, 2023-05-26)
is 2. -/
theorem daily_total_summation :
    (∀ (df : List RawRecord) (s e : Nat) (loc : String) (dt : Date),
      (get_df_lo_dt_eff df s e).cell dt loc =
        sumRain (df.filter (fun r => matchKey (loc, dt) r && inWindow s e r))) ∧
    (get_df_lo_dt_eff rsScenario 11 19).cell ⟨2023, 5, 26⟩ "A" = 2 := by
  refine ⟨cell_eq_filterSum, ?_⟩
  rw [cell_eq_filterSum]
  have hfil : rsScenario.filter
      (fun r => matchKey ("A", ⟨2023, 5, 26⟩) r && inWindow 11 19 r) = [recNoon] := by
    decide
  rw [hfil]
  simp [sumRain, rainfall_mm, recNoon]

/-- C10: for every record set and window with start_hour > end_hour, the
window aggregator raises nothing (its embedding is a total function, as the
source has no raise path) and yields an empty daily table: no rows, no
columns, every cell 0. -/
theorem inverted_window_empty (df : List RawRecord) (s e : Nat) (h : e < s) :
    (get_df_lo_dt_eff df s e).dates = [] ∧
    (get_df_lo_dt_eff df s e).locations = [] ∧
    ∀ dt loc, (get_df_lo_dt_eff df s e).cell dt loc = 0 := by
  have heff := eff_nil_of_inverted df s e h
  refine ⟨?_, ?_, ?_⟩
  · show ((keysOf (df.filter (inWindow s e))).map Prod.snd).dedup = []
    rw [heff]; rfl
  · show ((keysOf (df.filter (inWindow s e))).map Prod.fst).dedup = []
    rw [heff]; rfl
  · intro dt loc
    show (if (loc, dt) ∈ keysOf (df.filter (inWindow s e)) then
        groupSum (df.filter (inWindow s e)) (loc, dt) else 0) = 0
    rw [heff]
    rfl

/-- Witness for C10 at the concrete inverted window [19, 11]. -/
theorem inverted_window_empty_witness :
    11 < 19 ∧ (get_df_lo_dt_eff rsScenario 19 11).dates = [] ∧
    (get_df_lo_dt_eff rsScenario 19 11).locations = [] :=
  ⟨by decide, (inverted_window_empty rsScenario 19 11 (by decide)).1,
   (inverted_window_empty rsScenario 19 11 (by decide)).2.1⟩

/-- Counterexample to C3: with window [11, 19], valid since 11 ≤ 19, the
record set rsPartial contains a record (location B, date 2023-05-27, hour
20), yet the produced table has neither a row for 2023-05-27 nor a column
for B: the pivot is built from the window-filtered records only, not from
all input records. -/
theorem window_table_shape_counterexample :
    11 ≤ 19 ∧ recLate ∈ rsPartial ∧
    recLate.date ∉ (get_df_lo_dt_eff rsPartial 11 19).dates ∧
    recLate.location ∉ (get_df_lo_dt_eff rsPartial 11 19).locations := by decide

/-- C3 as amended: for every record set and valid window, the table has
exactly one row per distinct date and one column per distinct location
occurring among the records that pass the hour-window filter (not among
all input records), every cell is a rational ≥ 0 when all input rainfall
values are, and a (location, date) pair with no qualifying record holds 0
rather than being absent. -/
theorem window_table_shape (df : List RawRecord) (s e : Nat) (hwin : s ≤ e)
    (hnn : df.all (fun r => decide (0 ≤ rainfall_mm r)) = true) :
    (get_df_lo_dt_eff df s e).dates.Nodup ∧
    (get_df_lo_dt_eff df s e).locations.Nodup ∧
    (∀ dt, dt ∈ (get_df_lo_dt_eff df s e).dates ↔
      ∃ r ∈ df, inWindow s e r = true ∧ r.date = dt) ∧
    (∀ loc, loc ∈ (get_df_lo_dt_eff df s e).locations ↔
      ∃ r ∈ df, inWindow s e r = true ∧ r.location = loc) ∧
    (∀ dt loc, 0 ≤ (get_df_lo_dt_eff df s e).cell dt loc) ∧
    (∀ dt loc,
      (∀ r ∈ df, ¬(inWindow s e r = true ∧ r.location = loc ∧ r.date = dt)) →
      (get_df_lo_dt_eff df s e).cell dt loc = 0) := by
  refine ⟨List.nodup_dedup _, List.nodup_dedup _, ?_, ?_, ?_, ?_⟩
  · intro dt
    show dt ∈ ((keysOf (df.filter (inWindow s e))).map Prod.snd).dedup ↔ _
    rw [List.mem_dedup, List.mem_map]
    constructor
    · rintro ⟨k, hk, rfl⟩
      rw [keysOf, List.mem_dedup, List.mem_map] at hk
      obtain ⟨r, hr, rfl⟩ := hk
      obtain ⟨hrdf, hrwin⟩ := List.mem_filter.mp hr
      exact ⟨r, hrdf, hrwin, rfl⟩
    · rintro ⟨r, hrdf, hrwin, rfl⟩
      refine ⟨(r.location, r.date), ?_, rfl⟩
      rw [keysOf, List.mem_dedup, List.mem_map]
      exact ⟨r, List.mem_filter.mpr ⟨hrdf, hrwin⟩, rfl⟩
  · intro loc
    show loc ∈ ((keysOf (df.filter (inWindow s e))).map Prod.fst).dedup ↔ _
    rw [List.mem_dedup, List.mem_map]
    constructor
    · rintro ⟨k, hk, rfl⟩
      rw [keysOf, List.mem_dedup, List.mem_map] at hk
      obtain ⟨r, hr, rfl⟩ := hk
      obtain ⟨hrdf, hrwin⟩ := List.mem_filter.mp hr
      exact ⟨r, hrdf, hrwin, rfl⟩
    · rintro ⟨r, hrdf, hrwin, rfl⟩
      refine ⟨(r.location, r.date), ?_, rfl⟩
      rw [keysOf, List.mem_dedup, List.mem_map]
      exact ⟨r, List.mem_filter.mpr ⟨hrdf, hrwin⟩, rfl⟩
  · intro dt loc
    rw [cell_eq_filterSum]
    refine List.sum_nonneg ?_
    intro a ha
    rcases List.mem_map.mp ha with ⟨r, hr, rfl⟩
    have hrdf := List.mem_of_mem_filter hr
    exact of_decide_eq_true (List.all_eq_true.mp hnn r hrdf)
  · intro dt loc hnone
    rw [cell_eq_filterSum]
    have hnil : df.filter (fun r => matchKey (loc, dt) r && inWindow s e r) = [] := by
      rw [List.filter_eq_nil_iff]
      intro r hr hboth
      rcases Bool.and_eq_true_iff.mp hboth with ⟨hm, hw⟩
      rcases Bool.and_eq_true_iff.mp hm with ⟨hl, hd⟩
      exact hnone r hr ⟨hw, of_decide_eq_true hl, of_decide_eq_true hd⟩
    rw [hnil]; rfl

/-- Witness for C3 as amended: the nonnegativity hypothesis holds of
rsScenario, and the cell for the pair (location B, date 2023-05-27), which
has no qualifying record, is 0. -/
theorem window_table_shape_witness :
    11 ≤ 19 ∧ rsScenario.all (fun r => decide (0 ≤ rainfall_mm r)) = true ∧
    (get_df_lo_dt_eff rsScenario 11 19).cell ⟨2023, 5, 27⟩ "B" = 0 :=
  ⟨by decide, by decide,
    (window_table_shape rsScenario 11 19 (by decide) (by decide)).2.2.2.2.2
      ⟨2023, 5, 27⟩ "B" (by decide)⟩

/-- Counterexample to C2: tbl2020 contains a dated row for 2020-05-26, and
with requested year range [2022, 2024] and target date (5, 26) the series
produced by get_df_mon_day_year_eff still has the key 2020, which lies
outside the range. -/
theorem year_range_counterexample :
    (⟨2020, 5, 26⟩ : Date) ∈ tbl2020.dates ∧
    2020 ∈ seriesYears (get_df_mon_day_year_eff tbl2020 "A" 2022 2024 5 26) ∧
    ¬((2022 : Int) ≤ 2020 ∧ (2020 : Int) ≤ 2024) := by decide

/-- C2 as amended: the date-series aggregator never reads its year_start
and year_end parameters — its output is identical for any two requested
ranges — and every year key of the series is the year of some table row
dated with the target (month, day), so out-of-range years appear exactly
when the input table contains such rows for them. -/
theorem year_range_ignored :
    (∀ (t : DailyTotalsTable) (loc : String) (ys ye ys2 ye2 : Int) (m dy : Nat),
      get_df_mon_day_year_eff t loc ys ye m dy =
        get_df_mon_day_year_eff t loc ys2 ye2 m dy) ∧
    (∀ (t : DailyTotalsTable) (loc : String) (ys ye : Int) (m dy : Nat) (y : Int),
      y ∈ seriesYears (get_df_mon_day_year_eff t loc ys ye m dy) →
      t.dates.any (fun d =>
        decide (d.year = y) && decide (d.month = m) && decide (d.day = dy)) = true) := by
  constructor
  · intro t loc ys ye ys2 ye2 m dy
    rfl
  · intro t loc ys ye m dy y hy
    rw [get_df_mon_day_year_eff] at hy
    by_cases hloc : loc ∈ df_columns t
    · rw [if_pos hloc] at hy
      rw [seriesYears] at hy
      rw [List.mem_dedup, List.mem_map] at hy
      obtain ⟨d, hd, rfl⟩ := hy
      obtain ⟨hddates, hmatch⟩ := List.mem_filter.mp hd
      rcases Bool.and_eq_true_iff.mp hmatch with ⟨hm, hdy⟩
      rw [List.any_eq_true]
      exact ⟨d, hddates, by
        rw [Bool.and_eq_true_iff, Bool.and_eq_true_iff]
        exact ⟨⟨decide_eq_true rfl, hm⟩, hdy⟩⟩
    · rw [if_neg hloc] at hy
      exact absurd hy (by simp [seriesYears])

/-- Witness for C2 as amended, at tbl2020: the series for ranges
[2022, 2024] and [1994, 2024] coincide, and the out-of-range key 2020 is
accounted for by the table row dated 2020-05-26. -/
theorem year_range_ignored_witness :
    (get_df_mon_day_year_eff tbl2020 "A" 2022 2024 5 26 =
      get_df_mon_day_year_eff tbl2020 "A" 1994 2024 5 26) ∧
    2020 ∈ seriesYears (get_df_mon_day_year_eff tbl2020 "A" 2022 2024 5 26) ∧
    tbl2020.dates.any (fun d =>
      decide (d.year = 2020) && decide (d.month = 5) && decide (d.day = 26)) = true :=
  ⟨year_range_ignored.1 tbl2020 "A" 2022 2024 1994 2024 5 26,
   by decide,
   year_range_ignored.2 tbl2020 "A" 2022 2024 5 26 2020 (by decide)⟩

/-- Counterexample to C5: the requested location "hours" is not among the
location columns of tbl2020, yet neither aggregator fails — both return an
output table — because the membership test runs against the reset-index
frame's full column list, which contains the derived helper column named
hours. -/
theorem unknown_location_counterexample :
    "hours" ∉ tbl2020.locations ∧
    isOkE (get_df_mon_day_eff tbl2020 "hours" 2022 2024) = true ∧
    isOkE (get_df_mon_day_year_eff tbl2020 "hours" 2022 2024 5 26) = true := by decide

/-- C5 as amended: both aggregators fail with the unknown-location error
naming the offending location, and return no table, whenever the requested
location is absent from the reshaped frame's full column list — the
table's location columns plus the helper columns date, years, months,
days, hours.  A request for a helper-column name passes the check and
yields an output table instead of the error. -/
theorem unknown_location_rejected (t : DailyTotalsTable) (loc : String)
    (ys ye : Int) (m dy : Nat) (h : loc ∉ df_columns t) :
    get_df_mon_day_eff t loc ys ye = .error (locErrMsg loc) ∧
    get_df_mon_day_year_eff t loc ys ye m dy = .error (locErrMsg loc) :=
  ⟨(unknown_location_rejected_aux t loc ys ye h).1,
   (unknown_location_rejected_aux t loc ys ye h).2 m dy⟩

/-- Witness for C5 as amended at the unknown location "Z". -/
theorem unknown_location_rejected_witness :
    "Z" ∉ df_columns tbl2020 ∧
    get_df_mon_day_eff tbl2020 "Z" 2022 2024 = .error (locErrMsg "Z") ∧
    get_df_mon_day_year_eff tbl2020 "Z" 2022 2024 5 26 = .error (locErrMsg "Z") :=
  ⟨by decide,
   (unknown_location_rejected tbl2020 "Z" 2022 2024 5 26 (by decide)).1,
   (unknown_location_rejected tbl2020 "Z" 2022 2024 5 26 (by decide)).2⟩

/-- C9: for every daily table, location present among its columns, and
target (month, day), the produced series has exactly one year key per year
for which the table contains a row dated (year, month, day), and no key
for any other year. -/
theorem date_series_years (t : DailyTotalsTable) (loc : String) (ys ye : Int)
    (m dy : Nat) (h : loc ∈ t.locations) :
    (∀ y : Int, y ∈ seriesYears (get_df_mon_day_year_eff t loc ys ye m dy) ↔
      ∃ d ∈ t.dates, d.year = y ∧ d.month = m ∧ d.day = dy) ∧
    (seriesYears (get_df_mon_day_year_eff t loc ys ye m dy)).Nodup := by
  have hcol : loc ∈ df_columns t := by
    rw [df_columns]
    exact List.mem_cons_of_mem _ (List.mem_append_left _ h)
  rw [get_df_mon_day_year_eff, if_pos hcol, seriesYears]
  constructor
  · intro y
    rw [List.mem_dedup, List.mem_map]
    constructor
    · rintro ⟨d, hd, rfl⟩
      obtain ⟨hddates, hmatch⟩ := List.mem_filter.mp hd
      rcases Bool.and_eq_true_iff.mp hmatch with ⟨hm, hdy⟩
      exact ⟨d, hddates, rfl, of_decide_eq_true hm, of_decide_eq_true hdy⟩
    · rintro ⟨d, hddates, rfl, hm, hdy⟩
      refine ⟨d, List.mem_filter.mpr ⟨hddates, ?_⟩, rfl⟩
      rw [Bool.and_eq_true_iff]
      exact ⟨decide_eq_true hm, decide_eq_true hdy⟩
  · exact List.nodup_dedup _

/-- Witness for C9 at the spec's concrete scenario: with rows for
2022-05-26 and 2024-05-26 but no 2023 row for (5, 26), the series keys are
exactly [2022, 2024] and 2023 is absent. -/
theorem date_series_years_witness :
    "A" ∈ tblYears.locations ∧
    seriesYears (get_df_mon_day_year_eff tblYears "A" 2022 2024 5 26) = [2022, 2024] ∧
    2023 ∉ seriesYears (get_df_mon_day_year_eff tblYears "A" 2022 2024 5 26) := by
  refine ⟨by decide, by decide, fun hmem => ?_⟩
  have h := ((date_series_years tblYears "A" 2022 2024 5 26 (by decide)).1 2023).mp hmem
  exact absurd h (by decide)

/-- C7: for every daily table whose dated rows are Gregorian-valid dates,
location and year range, the calendar matrix contains a value only at
(month, day) pairs realised by some real calendar year — so never at
(2, 30) — and any (month, day) pair with no underlying year-restricted
row is absent (none, the model of a NaN pivot hole), not present as 0. -/
theorem calendar_keys_valid (t : DailyTotalsTable) (loc : String) (ys ye : Int)
    (hvalid : t.dates.all validDateB = true) (m dy : Nat) :
    (calCell (get_df_mon_day_eff t loc ys ye) m dy ≠ none → validMonthDay m dy) ∧
    ((∀ d ∈ t.dates, (ys ≤ d.year ∧ d.year ≤ ye) → ¬(d.month = m ∧ d.day = dy)) →
      calCell (get_df_mon_day_eff t loc ys ye) m dy = none) := by
  by_cases hloc : loc ∈ df_columns t
  · rw [calCell_ok t loc ys ye hloc m dy]
    constructor
    · intro hne
      by_cases hemp : ((t.dates.filter
          (fun d => decide (ys ≤ d.year) && decide (d.year ≤ ye))).filter
            (fun d => decide (d.month = m) && decide (d.day = dy))).isEmpty
      · rw [if_pos hemp] at hne
        exact absurd rfl hne
      · have hgne : (t.dates.filter
            (fun d => decide (ys ≤ d.year) && decide (d.year ≤ ye))).filter
              (fun d => decide (d.month = m) && decide (d.day = dy)) ≠ [] := by
          intro hnil
          rw [hnil] at hemp
          exact hemp rfl
        obtain ⟨d, hd⟩ := List.exists_mem_of_ne_nil _ hgne
        obtain ⟨hdrows, hmatch⟩ := List.mem_filter.mp hd
        obtain ⟨hddates, _⟩ := List.mem_filter.mp hdrows
        rcases Bool.and_eq_true_iff.mp hmatch with ⟨hm, hdy⟩
        have hvd := List.all_eq_true.mp hvalid d hddates
        rw [validDateB, Bool.and_eq_true_iff, Bool.and_eq_true_iff,
          Bool.and_eq_true_iff] at hvd
        obtain ⟨⟨⟨h1, h2⟩, h3⟩, h4⟩ := hvd
        have hmeq : d.month = m := of_decide_eq_true hm
        have hdyeq : d.day = dy := of_decide_eq_true hdy
        refine ⟨hmeq ▸ of_decide_eq_true h1, hmeq ▸ of_decide_eq_true h2,
          hdyeq ▸ of_decide_eq_true h3, d.year, ?_⟩
        rw [← hmeq, ← hdyeq]
        exact of_decide_eq_true h4
    · intro hnone
      have hemp : ((t.dates.filter
          (fun d => decide (ys ≤ d.year) && decide (d.year ≤ ye))).filter
            (fun d => decide (d.month = m) && decide (d.day = dy))).isEmpty = true := by
        rw [List.isEmpty_iff, List.filter_eq_nil_iff]
        intro d hdrows hmatch
        obtain ⟨hddates, hyr⟩ := List.mem_filter.mp hdrows
        rcases Bool.and_eq_true_iff.mp hyr with ⟨hy1, hy2⟩
        rcases Bool.and_eq_true_iff.mp hmatch with ⟨hm, hdy⟩
        exact hnone d hddates ⟨of_decide_eq_true hy1, of_decide_eq_true hy2⟩
          ⟨of_decide_eq_true hm, of_decide_eq_true hdy⟩
      rw [if_pos hemp]
  · have herr := (unknown_location_rejected_aux t loc ys ye hloc).1
    rw [herr]
    exact ⟨fun hne => absurd rfl hne, fun _ => rfl⟩

/-- Witness for C7 at tblCal, whose pivot grid contains month 2 and day 30
separately but no row dated (2, 30): the matrix cell at (2, 30) is none. -/
theorem calendar_keys_valid_witness :
    tblCal.dates.all validDateB = true ∧
    calCell (get_df_mon_day_eff tblCal "A" 2022 2024) 2 30 = none :=
  ⟨by decide,
   (calendar_keys_valid tblCal "A" 2022 2024 (by decide) 2 30).2 (by decide)⟩

/-! ### Loader claims -/

/-- The record set built by get_df equals the per-year concatenation over
exactly the successfully read years. -/
theorem flatten_map_eq_flatMap (fs : Int → Option (List CsvRow)) (years : List Int) :
    ((years.filterMap fs).flatten).map toRecord =
      (years.filter (fun y => (fs y).isSome)).flatMap
        (fun y => ((fs y).getD []).map toRecord) := by
  induction years with
  | nil => rfl
  | cons y ys ih =>
    cases h : fs y with
    | none => simp [List.filterMap_cons, List.filter_cons, h, ih]
    | some tb => simp [List.filterMap_cons, List.filter_cons, h, ih]

/-- Counterexample to C4: on the filesystem where the 2023 file is missing
but 2022 and 2024 load, the loading step succeeds and records the full
requested list [2022, 2023, 2024] as data_years; the list of years actually
loaded is [2022, 2024], and the two differ — the loader does not return
the actually-loaded subset. -/
theorem loader_years_counterexample :
    fsPartial 2023 = none ∧
    loadStepYears (load_step fsPartial 2022 2024) = [2022, 2023, 2024] ∧
    yearsLoadedSpec fsPartial [2022, 2023, 2024] = [2022, 2024] ∧
    loadStepYears (load_step fsPartial 2022 2024) ≠
      yearsLoadedSpec fsPartial (intRange 2022 2024) := by decide

/-- C4 as amended: the loader returns the concatenated record set only;
the year list the caller records next to it is always the full requested
range list(range(year_start, year_end+1)), never the possibly smaller list
of years whose files actually loaded. -/
theorem load_step_records_requested_years (fs : Int → Option (List CsvRow))
    (ys ye : Int) (h : isOkE (load_step fs ys ye) = true) :
    loadStepYears (load_step fs ys ye) = intRange ys ye ∧
    dfRecords (get_df fs (intRange ys ye)) =
      (yearsLoadedSpec fs (intRange ys ye)).flatMap
        (fun y => ((fs y).getD []).map toRecord) := by
  constructor
  · rw [load_step] at h ⊢
    cases hdf : get_df fs (intRange ys ye) with
    | error e =>
      rw [hdf] at h
      simp [isOkE] at h
    | ok p =>
      obtain ⟨w, df⟩ := p
      rfl
  · by_cases hemp : ((intRange ys ye).filterMap fs).isEmpty
    · exfalso
      rw [load_step, get_df, if_pos hemp] at h
      simp [isOkE] at h
    · rw [get_df, if_neg hemp]
      exact flatten_map_eq_flatMap fs (intRange ys ye)

/-- Witness for C4 as amended on the partially missing filesystem. -/
theorem load_step_records_requested_years_witness :
    isOkE (load_step fsPartial 2022 2024) = true ∧
    loadStepYears (load_step fsPartial 2022 2024) = intRange 2022 2024 ∧
    dfRecords (get_df fsPartial (intRange 2022 2024)) =
      (yearsLoadedSpec fsPartial (intRange 2022 2024)).flatMap
        (fun y => ((fsPartial y).getD []).map toRecord) :=
  ⟨by decide,
   (load_step_records_requested_years fsPartial 2022 2024 (by decide)).1,
   (load_step_records_requested_years fsPartial 2022 2024 (by decide)).2⟩

/-- C6: if no requested year's file can be read the loader aborts with the
fatal no-data message and returns nothing; if at least one file is
readable it succeeds, emitting one warning per failed year in request
order, and its record set is the concatenation over the successfully read
years only. -/
theorem loader_error_discipline (fs : Int → Option (List CsvRow)) (years : List Int) :
    ((∀ y ∈ years, fs y = none) → get_df fs years = .error noDataMsg) ∧
    ((∃ y ∈ years, (fs y).isSome = true) →
      isOkE (get_df fs years) = true ∧
      dfWarnings (get_df fs years) =
        (years.filter (fun y => (fs y).isNone)).map warnMsg ∧
      dfRecords (get_df fs years) =
        (years.filter (fun y => (fs y).isSome)).flatMap
          (fun y => ((fs y).getD []).map toRecord)) := by
  constructor
  · intro hall
    rw [get_df]
    have hemp : (years.filterMap fs).isEmpty = true := by
      rw [List.isEmpty_iff, List.filterMap_eq_nil_iff]
      exact hall
    rw [if_pos hemp]
  · rintro ⟨y, hy, hsome⟩
    have hne : ¬(years.filterMap fs).isEmpty = true := by
      rw [List.isEmpty_iff, List.filterMap_eq_nil_iff]
      intro hall
      rw [hall y hy] at hsome
      exact Bool.false_ne_true hsome
    rw [get_df, if_neg hne]
    exact ⟨rfl, rfl, flatten_map_eq_flatMap fs years⟩

/-- Witness for C6: total failure on fsEmpty aborts fatally; on fsPartial,
where only the 2023 file is missing, the loader continues with a warning
for 2023 and the concatenation of the 2022 and 2024 files. -/
theorem loader_error_discipline_witness :
    get_df fsEmpty [2022] = .error noDataMsg ∧
    (isOkE (get_df fsPartial [2022, 2023, 2024]) = true ∧
     dfWarnings (get_df fsPartial [2022, 2023, 2024]) =
       ([2022, 2023, 2024].filter (fun y => (fsPartial y).isNone)).map warnMsg ∧
     dfRecords (get_df fsPartial [2022, 2023, 2024]) =
       ([2022, 2023, 2024].filter (fun y => (fsPartial y).isSome)).flatMap
         (fun y => ((fsPartial y).getD []).map toRecord)) :=
  ⟨(loader_error_discipline fsEmpty [2022]).1 (by decide),
   (loader_error_discipline fsPartial [2022, 2023, 2024]).2 (by decide)⟩

/-- C8: whenever the loader succeeds, its record set is exactly the
concatenated source rows with the derived columns added, where the rain
field passes the raw rainfall amount through unchanged; the effective
rainfall of every loaded record is therefore defined, equal to the raw
value when present and to 0 when the value is absent. -/
theorem loader_rain_passthrough (fs : Int → Option (List CsvRow)) (years : List Int)
    (h : isOkE (get_df fs years) = true) :
    dfRecords (get_df fs years) = ((years.filterMap fs).flatten).map toRecord ∧
    ∀ row : CsvRow, (toRecord row).rain = row.rainAmount ∧
      (row.rainAmount = none → rainfall_mm (toRecord row) = 0) ∧
      (∀ v, row.rainAmount = some v → rainfall_mm (toRecord row) = v) := by
  constructor
  · rw [get_df] at h ⊢
    by_cases hemp : (years.filterMap fs).isEmpty
    · rw [if_pos hemp] at h
      exact absurd h (by rw [isOkE]; simp)
    · rw [if_neg hemp]
      rfl
  · intro row
    refine ⟨rfl, ?_, ?_⟩
    · intro hnone
      rw [rainfall_mm]
      show row.rainAmount.getD 0 = 0
      rw [hnone]
      rfl
    · intro v hv
      rw [rainfall_mm]
      show row.rainAmount.getD 0 = v
      rw [hv]
      rfl

/-- Witness for C8 on fsPartial, whose 2024 file has a row with an empty
rainfall cell (loaded as 0) and whose 2022 file has a 4 mm row (passed
through unchanged). -/
theorem loader_rain_passthrough_witness :
    isOkE (get_df fsPartial [2022, 2023, 2024]) = true ∧
    (toRecord row2024).rain = none ∧
    rainfall_mm (toRecord row2024) = 0 ∧
    rainfall_mm (toRecord row2022) = 4 := by
  refine ⟨by decide, ?_, ?_, ?_⟩
  · exact ((loader_rain_passthrough fsPartial [2022, 2023, 2024] (by decide)).2 row2024).1
  · exact ((loader_rain_passthrough fsPartial [2022, 2023, 2024] (by decide)).2 row2024).2.1 rfl
  · exact ((loader_rain_passthrough fsPartial [2022, 2023, 2024] (by decide)).2 row2022).2.2 4 rfl

end WeddingRainfall
